import Mathlib

/-!
Verification development for the tapas repository, shallowly embedding
src/tapas/run_task_main_edited.py.

The script is an orchestration driver: flag-configured path construction,
fail-fast option checks, a checkpoint polling loop, and post-processing of
per-token model outputs into per-cell probability and embedding tables.
The embedding below translates those parts: pure string arithmetic for the
path builders, Except-valued functions for the fail-fast checks, an
event-trace model for the polling loop, and explicit state-passing folds
for the probability-table and embedding-table reconstruction code in
_predict_sequence_for_set.  Token-level inputs (segment_ids, row_ids,
column_ids, probabilities, embeddings) are modeled as total functions on
positions; machine floats are modeled as rationals, and the numpy
division-by-zero nan is modeled as Option.none.
-/

namespace Tapas

/-- Model of os.path.join as used by the script (it always joins relative
path components). -/
def pathJoin (a b : String) : String := a ++ "/" ++ b

/-- The Mode enum of the script (run_task_main_edited.py, class Mode). -/
inductive Mode where
  | CREATE_DATA
  | TRAIN
  | PREDICT_AND_EVALUATE
  | EVALUATE
  | PREDICT
  deriving DecidableEq

/-- Rendering of a Mode value as Python prints an enum member. -/
def Mode.str : Mode → String
  | Mode.CREATE_DATA => "Mode.CREATE_DATA"
  | Mode.TRAIN => "Mode.TRAIN"
  | Mode.PREDICT_AND_EVALUATE => "Mode.PREDICT_AND_EVALUATE"
  | Mode.EVALUATE => "Mode.EVALUATE"
  | Mode.PREDICT => "Mode.PREDICT"

/-- The TestSet enum of the script. -/
inductive TestSet where
  | DEV
  | TEST
  deriving DecidableEq

/-- Model of _get_test_filename: which base filename is used for each test
set.  The actual names come from task_utils (not part of this repository),
so they are passed in as the two strings fnDev and fnTest. -/
def testFilename (fnDev fnTest : String) : TestSet → String
  | TestSet.DEV => fnDev
  | TestSet.TEST => fnTest

/-- Model of _get_test_examples_file: output_dir/tf_examples/(filename).tfrecord. -/
def getTestExamplesFile (outputDir filename : String) : String :=
  pathJoin (pathJoin outputDir "tf_examples") (filename ++ ".tfrecord")

/-- Model of _get_test_interactions_file: output_dir/interactions/(filename).tfrecord. -/
def getTestInteractionsFile (outputDir filename : String) : String :=
  pathJoin (pathJoin outputDir "interactions") (filename ++ ".tfrecord")

/-- Model of _get_test_prediction_file: model_dir/(filename)(suffix).tsv,
where the suffix carries the sequence marker and the global step. -/
def getTestPredictionFile (modelDir filename : String) (isSequence : Bool)
    (globalStep : Option ℕ) : String :=
  let suffix := match globalStep with
    | none => ""
    | some s => "_" ++ toString s
  let suffix2 := if isSequence then "_sequence" ++ suffix else suffix
  pathJoin modelDir (filename ++ suffix2 ++ ".tsv")

/-- The TFRecord compression types the script can select. -/
inductive TfCompression where
  | NONE
  | GZIP
  | ZLIB
  deriving DecidableEq

/-- Model of _to_tf_compression_type: empty maps to NONE, GZIP and ZLIB to
themselves, anything else raises ValueError. -/
def toTfCompressionType (compressionType : String) : Except String TfCompression :=
  if compressionType = "" then Except.ok TfCompression.NONE
  else if compressionType = "GZIP" then Except.ok TfCompression.GZIP
  else if compressionType = "ZLIB" then Except.ok TfCompression.ZLIB
  else Except.error ("Unknown compression type: " ++ compressionType)

/-- The aggregation configuration _train_and_predict derives from the task. -/
structure AggregationOptions where
  numAggregationLabels : ℕ
  doModelAggregation : Bool
  useAnswerAsSupervision : Option Bool
  deriving DecidableEq

/-- Model of the task dispatch at the top of _train_and_predict: SQA and the
three aggregation tasks are configured, any other task name raises
ValueError.  Task enum members are represented by their names, since the
tasks module is not part of this repository. -/
def taskAggregationOptions (task : String) : Except String AggregationOptions :=
  if task = "SQA" then
    Except.ok { numAggregationLabels := 0, doModelAggregation := false,
                useAnswerAsSupervision := none }
  else if task = "WTQ" ∨ task = "WIKISQL" ∨ task = "WIKISQL_SUPERVISED" then
    Except.ok { numAggregationLabels := 4, doModelAggregation := true,
                useAnswerAsSupervision := some (decide (task ≠ "WIKISQL_SUPERVISED")) }
  else Except.error ("Unknown task: " ++ task)

/-- Model of str.upper as a charwise map over the characters. -/
def strToUpper (s : String) : String := String.mk (s.data.map Char.toUpper)

/-- Model of Mode[FLAGS.mode.upper()] in main: the five member names are
accepted after upper-casing, anything else raises KeyError. -/
def parseMode (s : String) : Except String Mode :=
  if strToUpper s = "CREATE_DATA" then Except.ok Mode.CREATE_DATA
  else if strToUpper s = "TRAIN" then Except.ok Mode.TRAIN
  else if strToUpper s = "PREDICT_AND_EVALUATE" then Except.ok Mode.PREDICT_AND_EVALUATE
  else if strToUpper s = "EVALUATE" then Except.ok Mode.EVALUATE
  else if strToUpper s = "PREDICT" then Except.ok Mode.PREDICT
  else Except.error ("KeyError: " ++ s)

/-- Model of _check_options.  File existence is abstracted by the fileExists
predicate (tf.io.gfile.exists); devFilename abstracts
_get_test_filename(task, TestSet.DEV). -/
def checkOptions (mode : Mode) (outputDir devFilename : String)
    (fileExists : String → Bool) : Except String Unit :=
  if mode = Mode.CREATE_DATA then Except.ok ()
  else if (mode = Mode.PREDICT_AND_EVALUATE ∨ mode = Mode.EVALUATE) ∧
      fileExists (getTestInteractionsFile outputDir devFilename) = false then
    Except.error ("No interactions found: " ++ getTestInteractionsFile outputDir devFilename)
  else if fileExists (getTestExamplesFile outputDir devFilename) = false then
    Except.error ("No TF examples found: " ++ getTestExamplesFile outputDir devFilename)
  else Except.ok ()

/-- The action main takes after its checks pass. -/
inductive MainAction where
  | trainAndPredict (mode : Mode)
  deriving DecidableEq

/-- Model of the dispatch at the end of main: only PREDICT_AND_EVALUATE and
PREDICT reach _train_and_predict, every other mode raises
ValueError with a Not Predictive Mode message. -/
def mainDispatch (mode : Mode) : Except String MainAction :=
  if mode = Mode.PREDICT_AND_EVALUATE ∨ mode = Mode.PREDICT then
    Except.ok (MainAction.trainAndPredict mode)
  else Except.error ("Not Predictive Mode: " ++ mode.str)

/-- Model of main after flag reading: parse the mode, run _check_options,
then dispatch. -/
def mainRun (modeFlag outputDir devFilename : String)
    (fileExists : String → Bool) : Except String MainAction := do
  let mode ← parseMode modeFlag
  let _ ← checkOptions mode outputDir devFilename fileExists
  mainDispatch mode

/-- The list of (written prediction file, step-less copy target) pairs
produced by one _predict call: regular predictions for DEV and TEST always,
sequence predictions for DEV and TEST only for the SQA task when not on
TPU.  Each _predict_for_set and _predict_sequence_for_set call writes its
prediction_file and then copies it onto other_prediction_file with
overwrite. -/
def predictFilePairs (isSQA useTpu : Bool) (modelDir fnDev fnTest : String)
    (globalStep : ℕ) : List (String × String) :=
  ([TestSet.DEV, TestSet.TEST].map (fun ts =>
    (getTestPredictionFile modelDir (testFilename fnDev fnTest ts) false (some globalStep),
     getTestPredictionFile modelDir (testFilename fnDev fnTest ts) false none))) ++
  (if isSQA = true ∧ useTpu = false then
    [TestSet.DEV, TestSet.TEST].map (fun ts =>
      (getTestPredictionFile modelDir (testFilename fnDev fnTest ts) true (some globalStep),
       getTestPredictionFile modelDir (testFilename fnDev fnTest ts) true none))
  else [])

/-- The arguments that _predict_for_set binds for the external
tapas_classifier_model.input_fn via functools.partial (lines 452-464 of the
source); _predict_sequence_for_set passes the same compression_type on to
read_classifier_dataset (line 487).  The input_fn itself is outside this
repository. -/
structure PredictInputConfig where
  name : String
  filePatterns : String
  dataFormat : String
  compressionType : String
  isTraining : Bool
  maxSeqLength : ℕ
  maxPredictionsPerSeq : ℕ
  addAggregationFunctionId : Bool
  addClassificationLabels : Bool
  addAnswer : Option Bool
  includeId : Bool
  deriving DecidableEq

/-- Model of the input-fn argument construction of _predict_for_set:
FLAGS.compression_type is forwarded exactly as given, without any
validation by this script, for every string value of the flag. -/
def predictInputFnArgs (compressionType : String) (maxSeqLength : ℕ)
    (exampleFile : String) (doModelAggregation : Bool)
    (useAnswerAsSupervision : Option Bool) : PredictInputConfig :=
  { name := "predict", filePatterns := exampleFile, dataFormat := "tfrecord",
    compressionType := compressionType, isTraining := false,
    maxSeqLength := maxSeqLength, maxPredictionsPerSeq := 20,
    addAggregationFunctionId := doModelAggregation,
    addClassificationLabels := false, addAnswer := useAnswerAsSupervision,
    includeId := false }

/-- Observable events of the checkpoint polling loop in _train_and_predict. -/
inductive LoopEvent where
  | sleepMins (mins : ℕ)
  | predictStep (step : ℕ)
  | evalStep (step : ℕ)
  | finished (step : ℕ)
  | failNoCheckpoint
  deriving DecidableEq

/-- Model of the polling loop of _train_and_predict for PREDICT and
PREDICT_AND_EVALUATE.  latestAt gives the result of
estimator.latest_checkpoint() at each successive poll, as the step number
parsed from the checkpoint basename (none when no checkpoint exists yet).
doEval is true in PREDICT_AND_EVALUATE mode.  fuel bounds the number of
iterations that are unrolled, since the source loop need not terminate.
Note that, as in the edited source, prev is initialized to none by the
caller and is never reassigned inside the loop body. -/
def pollLoop (doEval loopPredict : Bool) (numTrainSteps : ℕ)
    (latestAt : ℕ → Option ℕ) : ℕ → ℕ → Option ℕ → List LoopEvent
  | 0, _, _ => []
  | fuel+1, t, prev =>
    let checkpoint := latestAt t
    if loopPredict = false ∧ checkpoint = none then [LoopEvent.failNoCheckpoint]
    else if loopPredict = true ∧ checkpoint = prev then
      LoopEvent.sleepMins 5 ::
        pollLoop doEval loopPredict numTrainSteps latestAt fuel (t+1) prev
    else
      match checkpoint with
      | none => [LoopEvent.failNoCheckpoint]
      | some step =>
        LoopEvent.predictStep step ::
          ((if doEval then [LoopEvent.evalStep step] else []) ++
           (if loopPredict = false ∨ numTrainSteps ≤ step then [LoopEvent.finished step]
            else pollLoop doEval loopPredict numTrainSteps latestAt fuel (t+1) prev))

/-- The flags used by the table-reconstruction code in
_predict_sequence_for_set. -/
structure Flags where
  numColumns : ℕ
  columnOrder : ℕ → ℕ
  maxSeqLength : ℕ

/-- One query dictionary of the sequence-prediction result: per-position
segment ids, row ids, column ids, per-position probabilities and embedding
vectors (an embedding vector is a function from dimension to value). -/
structure Query where
  segmentIds : ℕ → ℕ
  rowIds : ℕ → ℕ
  columnIds : ℕ → ℕ
  probabilities : ℕ → ℚ
  embeddings : ℕ → ℕ → ℚ

/-- Model of max(query row_ids): the maximum over all positions of the
padded array, whose length is max_seq_length. -/
def numRowsQ (fl : Flags) (q : Query) : ℕ :=
  Finset.sup (Finset.range fl.maxSeqLength) q.rowIds

/-- Functional update of one entry of a two-dimensional grid of rationals. -/
def gridUpdate (g : ℕ → ℕ → ℚ) (r c : ℕ) (v : ℚ) : ℕ → ℕ → ℚ :=
  fun r2 c2 => if r2 = r ∧ c2 = c then v else g r2 c2

/-- The write condition of the probability-table loop: a segment-1 token
whose row id or column id differs from that of the previous position. -/
def probBoundary (q : Query) (i : ℕ) : Prop :=
  q.segmentIds i = 1 ∧ (q.rowIds (i-1) ≠ q.rowIds i ∨ q.columnIds (i-1) ≠ q.columnIds i)

instance (q : Query) (i : ℕ) : Decidable (probBoundary q i) := by
  unfold probBoundary; infer_instance

/-- One iteration of the probability-table loop body: when the boundary
condition holds, result_array[row-1][column_ids[i]-1] is set to
probabilities[i].  Note the remapped column FLAGS.column_order[...] is
computed by the source but not used in the store. -/
def probTableStep (q : Query) (g : ℕ → ℕ → ℚ) (i : ℕ) : ℕ → ℕ → ℚ :=
  if probBoundary q i then
    gridUpdate g (q.rowIds i - 1) (q.columnIds i - 1) (q.probabilities i)
  else g

/-- The probability-table loop after processing positions 1..k in order,
started from the all-zero array. -/
def probTableUpto (q : Query) : ℕ → (ℕ → ℕ → ℚ)
  | 0 => fun _ _ => 0
  | k+1 => probTableStep q (probTableUpto q k) (k+1)

/-- The probability table built for one query by the write_prob_table path:
the loop runs for i in range(1, max_seq_length). -/
def probTable (fl : Flags) (q : Query) : ℕ → ℕ → ℚ :=
  probTableUpto q (fl.maxSeqLength - 1)

/-- Modelled from the spec words of claim C1, for comparison with probTable:
the claimed placement stores probabilities[i] at row row_ids[i]-1 and at
the column_order index remapping of column_ids[i]. -/
def probTableStepClaimed (fl : Flags) (q : Query) (g : ℕ → ℕ → ℚ) (i : ℕ) : ℕ → ℕ → ℚ :=
  if probBoundary q i then
    gridUpdate g (q.rowIds i - 1) (fl.columnOrder (q.columnIds i - 1) - 1) (q.probabilities i)
  else g

/-- Modelled from the spec words of claim C1: the claimed table, iterated
like probTableUpto. -/
def probTableClaimedUpto (fl : Flags) (q : Query) : ℕ → (ℕ → ℕ → ℚ)
  | 0 => fun _ _ => 0
  | k+1 => probTableStepClaimed fl q (probTableClaimedUpto fl q k) (k+1)

/-- Modelled from the spec words of claim C1: the full claimed table. -/
def probTableClaimed (fl : Flags) (q : Query) : ℕ → ℕ → ℚ :=
  probTableClaimedUpto fl q (fl.maxSeqLength - 1)

/-- The per-query probability table materialized as a list of rows of shape
(numRowsQ, numColumns), as np.zeros((num_rows, FLAGS.num_columns)) filled
by the loop. -/
def probTableRows (fl : Flags) (q : Query) : List (List ℚ) :=
  (List.range (numRowsQ fl q)).map (fun r =>
    (List.range fl.numColumns).map (fun c => probTable fl q r c))

/-- Model of the probs.npy round trip of the write_prob_table path: for each
query, np.load the current file (FileNotFoundError when absent),
np.concatenate the per-query table rows onto it, and np.save the result
back. -/
def writeProbStore (fl : Flags) : List Query → Option (List (List ℚ)) →
    Except String (Option (List (List ℚ)))
  | [], store => Except.ok store
  | _ :: _, none => Except.error "FileNotFoundError: probs.npy"
  | q :: rest, some rows => writeProbStore fl rest (some (rows ++ probTableRows fl q))

/-- The column index used by the embedding-table path:
int(FLAGS.column_order[column_ids[i]-1])-1. -/
def remapCol (fl : Flags) (q : Query) (i : ℕ) : ℕ :=
  fl.columnOrder (q.columnIds i - 1) - 1

/-- The mutable state of the embedding-table loop body. -/
structure EmbedState where
  row : ℕ
  column : ℕ
  atBeginning : Bool
  embedSum : ℕ → ℕ → ℕ → ℚ
  numArr : ℕ → ℕ → ℕ
  querySum : ℕ → ℚ
  queryNum : ℕ

/-- Initial state of the embedding-table loop: row = 0, column = 0,
at_beginning = True, zero accumulators. -/
def initEmbedState : EmbedState :=
  { row := 0, column := 0, atBeginning := true,
    embedSum := fun _ _ _ => 0, numArr := fun _ _ => 0,
    querySum := fun _ => 0, queryNum := 0 }

/-- Pointwise accumulation of an embedding vector into one grid cell. -/
def addCell (g : ℕ → ℕ → ℕ → ℚ) (r c : ℕ) (v : ℕ → ℚ) : ℕ → ℕ → ℕ → ℚ :=
  fun r2 c2 d => if r2 = r ∧ c2 = c then g r2 c2 d + v d else g r2 c2 d

/-- Increment of the token counter of one grid cell. -/
def addNum (g : ℕ → ℕ → ℕ) (r c : ℕ) : ℕ → ℕ → ℕ :=
  fun r2 c2 => if r2 = r ∧ c2 = c then g r2 c2 + 1 else g r2 c2

/-- One iteration of the embedding-table loop body at position i, translated
branch for branch from the source: first the query-embedding accumulation
for leading segment-0 tokens, then the two segment-1 branches that track
the current cell and accumulate the token embedding and count into it. -/
def embedStep (fl : Flags) (q : Query) (s : EmbedState) (i : ℕ) : EmbedState :=
  let s1 :=
    if q.segmentIds i = 0 ∧ s.atBeginning = true ∧ i ≠ 0 ∧ q.segmentIds (i+1) ≠ 1 then
      { s with querySum := fun d => s.querySum d + q.embeddings i d,
               queryNum := s.queryNum + 1 }
    else s
  if q.segmentIds i = 1 ∧ ¬(s1.row = q.rowIds i - 1 ∧ s1.column = remapCol fl q i) then
    { s1 with atBeginning := false,
              row := q.rowIds i - 1,
              column := remapCol fl q i,
              embedSum := addCell s1.embedSum (q.rowIds i - 1) (remapCol fl q i) (q.embeddings i),
              numArr := addNum s1.numArr (q.rowIds i - 1) (remapCol fl q i) }
  else if q.segmentIds i = 1 then
    { s1 with atBeginning := false,
              embedSum := addCell s1.embedSum s1.row s1.column (q.embeddings i),
              numArr := addNum s1.numArr s1.row s1.column }
  else s1

/-- The embedding-table loop state after processing positions 1..k in order. -/
def embedFoldUpto (fl : Flags) (q : Query) : ℕ → EmbedState
  | 0 => initEmbedState
  | k+1 => embedStep fl q (embedFoldUpto fl q k) (k+1)

/-- The final loop state for one query: the loop runs for i in
range(1, max_seq_length). -/
def embedFold (fl : Flags) (q : Query) : EmbedState :=
  embedFoldUpto fl q (fl.maxSeqLength - 1)

/-- The normalized entry of the embedding table for cell (r, c):
embed_array[r][c] / num_array[r][c], with the numpy zero-division nan
modeled as none. -/
def embedEntry (fl : Flags) (q : Query) (r c : ℕ) : Option (ℕ → ℚ) :=
  let s := embedFold fl q
  if s.numArr r c = 0 then none
  else some (fun d => s.embedSum r c d / (s.numArr r c : ℚ))

/-- The normalized query embedding: query_array / query_array_num, with the
numpy zero-division nan modeled as none. -/
def queryVecOf (fl : Flags) (q : Query) : Option (ℕ → ℚ) :=
  let s := embedFold fl q
  if s.queryNum = 0 then none
  else some (fun d => s.querySum d / (s.queryNum : ℚ))

/-- The flattened array saved to embeds.npy: the comprehension iterates the
rows of the (numRowsQ, numColumns) grids in order and flattens them. -/
def savedEmbeds (fl : Flags) (q : Query) : List (Option (ℕ → ℚ)) :=
  ((List.range (numRowsQ fl q)).map (fun r =>
    (List.range fl.numColumns).map (fun c => embedEntry fl q r c))).flatten

/-- The positions whose token embedding is accumulated into cell (r, c),
among 1..max_seq_length-1: segment-1 tokens whose zero-based row index is r
and whose remapped zero-based column index is c. -/
def cellTokens (fl : Flags) (q : Query) (r c : ℕ) : Finset ℕ :=
  (Finset.Ico 1 fl.maxSeqLength).filter (fun i =>
    q.segmentIds i = 1 ∧ q.rowIds i - 1 = r ∧ remapCol fl q i = c)

/-- The positions counted into the query embedding: leading segment-0
tokens (no segment-1 token strictly before them in 1..i-1) that are not
immediately followed by a segment-1 token. -/
def queryTokens (fl : Flags) (q : Query) : Finset ℕ :=
  (Finset.Ico 1 fl.maxSeqLength).filter (fun i =>
    q.segmentIds i = 0 ∧ (∀ j ∈ Finset.Ico 1 i, q.segmentIds j ≠ 1) ∧
      q.segmentIds (i+1) ≠ 1)

/-- cellTokens cut off at position k (positions 1..k only). -/
def cellTokensUpto (fl : Flags) (q : Query) (r c k : ℕ) : Finset ℕ :=
  (Finset.Ico 1 (k+1)).filter (fun i =>
    q.segmentIds i = 1 ∧ q.rowIds i - 1 = r ∧ remapCol fl q i = c)

/-- queryTokens cut off at position k (positions 1..k only); the flags
argument is kept for symmetry with cellTokensUpto. -/
def queryTokensUpto (_fl : Flags) (q : Query) (k : ℕ) : Finset ℕ :=
  (Finset.Ico 1 (k+1)).filter (fun i =>
    q.segmentIds i = 0 ∧ (∀ j ∈ Finset.Ico 1 i, q.segmentIds j ≠ 1) ∧
      q.segmentIds (i+1) ≠ 1)

/-- Contents of the files written by the write_embed_table path, together
with how many times each was saved. -/
structure EmbedFiles where
  queryFile : Option (Option (ℕ → ℚ))
  embedsFile : Option (List (Option (ℕ → ℚ)))
  querySaves : ℕ
  embedsSaves : ℕ

/-- Model of the write_embed_table loop over all queries of the result:
each iteration recomputes both arrays for the current query and saves them
to query.npy and embeds.npy, overwriting the previous contents. -/
def writeEmbedStore (fl : Flags) (queries : List Query) (files : EmbedFiles) : EmbedFiles :=
  queries.foldl (fun f q =>
    { queryFile := some (queryVecOf fl q),
      embedsFile := some (savedEmbeds fl q),
      querySaves := f.querySaves + 1,
      embedsSaves := f.embedsSaves + 1 }) files

/-- Concrete flags for the claim C1 counterexample: num_columns = 2,
column_order = [2, 1], max_seq_length = 2. -/
def flC1 : Flags :=
  { numColumns := 2, columnOrder := fun n => if n = 0 then 2 else 1, maxSeqLength := 2 }

/-- Concrete query for the claim C1 counterexample: position 1 is a
segment-1 token of row 1, column 1 with probability 1. -/
def qC1 : Query :=
  { segmentIds := fun i => if i = 1 then 1 else 0,
    rowIds := fun i => if i = 1 then 1 else 0,
    columnIds := fun i => if i = 1 then 1 else 0,
    probabilities := fun i => if i = 1 then 1 else 0,
    embeddings := fun _ _ => 0 }

/-- Concrete flags for witnesses: num_columns = 2, identity column order,
max_seq_length = 4. -/
def flW : Flags :=
  { numColumns := 2, columnOrder := fun n => n + 1, maxSeqLength := 4 }

/-- Concrete query for witnesses: position 1 is a counted leading segment-0
token, position 2 a leading segment-0 token not counted (followed by a
segment-1 token), position 3 a segment-1 token of cell (0, 0). -/
def qW : Query :=
  { segmentIds := fun i => if i = 3 then 1 else 0,
    rowIds := fun i => if i = 3 then 1 else 0,
    columnIds := fun i => if i = 3 then 1 else 0,
    probabilities := fun _ => 0,
    embeddings := fun i _ => (i : ℚ) }

/-- Empty initial state of the embed files. -/
def emptyEmbedFiles : EmbedFiles :=
  { queryFile := none, embedsFile := none, querySaves := 0, embedsSaves := 0 }

/-! Theorems. -/

theorem strAppend_assoc (a b c : String) : a ++ b ++ c = a ++ (b ++ c) := by
  apply String.ext
  simp [String.data_append]

/-- The shape of the prediction file paths: step suffix present exactly when
a global step is given, sequence marker controlled by is_sequence. -/
theorem getTestPredictionFile_spec (modelDir fn : String) (isSeq : Bool) (step : ℕ) :
    getTestPredictionFile modelDir fn isSeq (some step) =
      modelDir ++ "/" ++ fn ++ (if isSeq = true then "_sequence" else "") ++
        "_" ++ toString step ++ ".tsv" ∧
    getTestPredictionFile modelDir fn isSeq none =
      modelDir ++ "/" ++ fn ++ (if isSeq = true then "_sequence" else "") ++ ".tsv" := by
  cases isSeq <;> constructor <;>
    (apply String.ext; simp [getTestPredictionFile, pathJoin, String.data_append])

/-- Claim C5 counterexample: the claim says an invalid compression_type
makes the script fail fast before any prediction work, but with the invalid
compression string SNAPPY no error is raised: main parses the predict mode,
passes every one of its fail-fast checks and dispatches (mainRun, the model
of all checks main performs before work, never consults the compression
flag, which is why it does not even take it), and _predict_for_set forwards
the invalid string unchanged to the external input_fn.  The only code that
would raise, _to_tf_compression_type, is defined at lines 167-175 but never
called anywhere in the edited script. -/
theorem claim_C5_counterexample :
    ("SNAPPY" ≠ "" ∧ "SNAPPY" ≠ "GZIP" ∧ "SNAPPY" ≠ "ZLIB") ∧
    mainRun "predict" "out/sqa" "dev" (fun _ => true) =
      Except.ok (MainAction.trainAndPredict Mode.PREDICT) ∧
    (predictInputFnArgs "SNAPPY" 512 "out/sqa/tf_examples/dev.tfrecord" false
        none).compressionType = "SNAPPY" ∧
    toTfCompressionType "SNAPPY" =
      Except.error ("Unknown compression type: " ++ "SNAPPY") :=
  ⟨by decide, rfl, rfl, rfl⟩

/-- Claim C5 (amended): for an unknown task and for an unknown mode string
the script fails fast with a descriptive error before any training or
prediction work; the helper _to_tf_compression_type maps the empty string,
GZIP and ZLIB to NONE, GZIP and ZLIB and raises a descriptive ValueError
for any other string, but the helper is never called in the edited script:
FLAGS.compression_type is forwarded unvalidated to the external input_fn,
so an invalid compression_type is not rejected by the script. -/
theorem claim_C5_config_errors :
    toTfCompressionType "" = Except.ok TfCompression.NONE ∧
    toTfCompressionType "GZIP" = Except.ok TfCompression.GZIP ∧
    toTfCompressionType "ZLIB" = Except.ok TfCompression.ZLIB ∧
    (∀ s : String, s ≠ "" → s ≠ "GZIP" → s ≠ "ZLIB" →
      toTfCompressionType s = Except.error ("Unknown compression type: " ++ s)) ∧
    (∀ t : String, t ≠ "SQA" → t ≠ "WTQ" → t ≠ "WIKISQL" → t ≠ "WIKISQL_SUPERVISED" →
      taskAggregationOptions t = Except.error ("Unknown task: " ++ t)) ∧
    (∀ m : String, strToUpper m ≠ "CREATE_DATA" → strToUpper m ≠ "TRAIN" →
      strToUpper m ≠ "PREDICT_AND_EVALUATE" → strToUpper m ≠ "EVALUATE" →
      strToUpper m ≠ "PREDICT" → ∃ e, parseMode m = Except.error e) ∧
    (∀ (s exFile : String) (msl : ℕ) (agg : Bool) (sup : Option Bool),
      (predictInputFnArgs s msl exFile agg sup).compressionType = s) := by
  refine ⟨rfl, rfl, rfl, ?_, ?_, ?_, fun _ _ _ _ _ => rfl⟩
  · intro s h1 h2 h3
    simp only [toTfCompressionType, if_neg h1, if_neg h2, if_neg h3]
  · intro t h1 h2 h3 h4
    have h5 : ¬(t = "WTQ" ∨ t = "WIKISQL" ∨ t = "WIKISQL_SUPERVISED") := by
      simp [h2, h3, h4]
    simp only [taskAggregationOptions, if_neg h1, if_neg h5]
  · intro m h1 h2 h3 h4 h5
    exact ⟨"KeyError: " ++ m,
      by simp only [parseMode, if_neg h1, if_neg h2, if_neg h3, if_neg h4, if_neg h5]⟩

/-- Witness for claim C5 (amended) at concrete invalid configuration
values. -/
theorem claim_C5_witness :
    toTfCompressionType "SNAPPY" = Except.error ("Unknown compression type: " ++ "SNAPPY") ∧
    taskAggregationOptions "TABFACT" = Except.error ("Unknown task: " ++ "TABFACT") ∧
    (∃ e, parseMode "frobnicate" = Except.error e) ∧
    (predictInputFnArgs "ZSTD" 512 "dev.tfrecord" false none).compressionType = "ZSTD" :=
  ⟨claim_C5_config_errors.2.2.2.1 "SNAPPY" (by decide) (by decide) (by decide),
   claim_C5_config_errors.2.2.2.2.1 "TABFACT" (by decide) (by decide) (by decide) (by decide),
   claim_C5_config_errors.2.2.2.2.2.1 "frobnicate" (by decide) (by decide) (by decide)
     (by decide) (by decide),
   claim_C5_config_errors.2.2.2.2.2.2 "ZSTD" "dev.tfrecord" 512 false none⟩

/-- Claim C6: for every mode other than CREATE_DATA, if the dev TF-examples
file under output_dir/tf_examples does not exist, _check_options raises a
ValueError; for PREDICT_AND_EVALUATE and EVALUATE it additionally raises a
ValueError when the dev interactions file under output_dir/interactions
does not exist. -/
theorem claim_C6_check_options (mode : Mode) (outputDir devFilename : String)
    (fileExists : String → Bool) (hmode : mode ≠ Mode.CREATE_DATA) :
    (fileExists (getTestExamplesFile outputDir devFilename) = false →
      ∃ e, checkOptions mode outputDir devFilename fileExists = Except.error e) ∧
    ((mode = Mode.PREDICT_AND_EVALUATE ∨ mode = Mode.EVALUATE) →
      fileExists (getTestInteractionsFile outputDir devFilename) = false →
      checkOptions mode outputDir devFilename fileExists =
        Except.error ("No interactions found: " ++
          getTestInteractionsFile outputDir devFilename)) := by
  constructor
  · intro hex
    by_cases hint : (mode = Mode.PREDICT_AND_EVALUATE ∨ mode = Mode.EVALUATE) ∧
        fileExists (getTestInteractionsFile outputDir devFilename) = false
    · exact ⟨"No interactions found: " ++ getTestInteractionsFile outputDir devFilename,
        by simp only [checkOptions, if_neg hmode, if_pos hint]⟩
    · exact ⟨"No TF examples found: " ++ getTestExamplesFile outputDir devFilename,
        by simp only [checkOptions, if_neg hmode, if_neg hint, hex, if_pos]⟩
  · intro hm hint
    simp only [checkOptions, if_neg hmode, if_pos (And.intro hm hint)]

/-- Witness for claim C6: EVALUATE mode with no files present raises the
interactions error. -/
theorem claim_C6_witness :
    (Mode.EVALUATE ≠ Mode.CREATE_DATA) ∧
    (∃ e, checkOptions Mode.EVALUATE "out/sqa" "dev" (fun _ => false) = Except.error e) ∧
    checkOptions Mode.EVALUATE "out/sqa" "dev" (fun _ => false) =
      Except.error ("No interactions found: " ++
        getTestInteractionsFile "out/sqa" "dev") :=
  ⟨by decide,
   (claim_C6_check_options Mode.EVALUATE "out/sqa" "dev" (fun _ => false) (by decide)).1 rfl,
   (claim_C6_check_options Mode.EVALUATE "out/sqa" "dev" (fun _ => false) (by decide)).2
     (Or.inr rfl) rfl⟩

/-- Claim C7 counterexample: the claim says main dispatches behavior for
each of the five mode strings, but for the mode string train (and likewise
create_data and evaluate) main rejects the mode with a Not Predictive Mode
ValueError even though all file checks pass. -/
theorem claim_C7_counterexample :
    mainRun "train" "out/sqa" "dev" (fun _ => true) =
      Except.error ("Not Predictive Mode: " ++ "Mode.TRAIN") := by
  rfl

/-- Claim C7 (amended): the mode selector parses each of the five mode
strings create_data, train, predict, evaluate and predict_and_evaluate, but
main dispatches behavior only for predict and predict_and_evaluate; for
create_data, train and evaluate it rejects the mode with a Not Predictive
Mode error. -/
theorem claim_C7_mode_dispatch :
    parseMode "create_data" = Except.ok Mode.CREATE_DATA ∧
    parseMode "train" = Except.ok Mode.TRAIN ∧
    parseMode "predict" = Except.ok Mode.PREDICT ∧
    parseMode "evaluate" = Except.ok Mode.EVALUATE ∧
    parseMode "predict_and_evaluate" = Except.ok Mode.PREDICT_AND_EVALUATE ∧
    mainDispatch Mode.PREDICT = Except.ok (MainAction.trainAndPredict Mode.PREDICT) ∧
    mainDispatch Mode.PREDICT_AND_EVALUATE =
      Except.ok (MainAction.trainAndPredict Mode.PREDICT_AND_EVALUATE) ∧
    (∀ m : Mode, m = Mode.CREATE_DATA ∨ m = Mode.TRAIN ∨ m = Mode.EVALUATE →
      mainDispatch m = Except.error ("Not Predictive Mode: " ++ m.str)) := by
  refine ⟨rfl, rfl, rfl, rfl, rfl, rfl, rfl, ?_⟩
  intro m hm
  rcases hm with h | h | h <;> subst h <;> rfl

/-- Witness for claim C7 (amended) at the concrete mode TRAIN. -/
theorem claim_C7_witness :
    mainDispatch Mode.TRAIN = Except.error ("Not Predictive Mode: " ++ Mode.str Mode.TRAIN) :=
  claim_C7_mode_dispatch.2.2.2.2.2.2.2 Mode.TRAIN (Or.inr (Or.inl rfl))

/-- Claim C4: for every task, test set and checkpoint step, the prediction
file path is model_dir/(test-set filename)(suffix).tsv, where the suffix
contains the sequence marker exactly for SQA sequence predictions and the
step marker exactly when the global step is not none; each written per-step
file is paired with a copy onto the step-less file of the same name. -/
theorem claim_C4_prediction_files (isSQA useTpu : Bool)
    (modelDir fnDev fnTest : String) (step : ℕ) (pair : String × String)
    (hmem : pair ∈ predictFilePairs isSQA useTpu modelDir fnDev fnTest step) :
    ∃ fn isSeq,
      (fn = fnDev ∨ fn = fnTest) ∧
      (isSeq = true → isSQA = true ∧ useTpu = false) ∧
      pair.1 = getTestPredictionFile modelDir fn isSeq (some step) ∧
      pair.2 = getTestPredictionFile modelDir fn isSeq none ∧
      pair.1 = modelDir ++ "/" ++ fn ++ (if isSeq = true then "_sequence" else "") ++
        "_" ++ toString step ++ ".tsv" ∧
      pair.2 = modelDir ++ "/" ++ fn ++ (if isSeq = true then "_sequence" else "") ++
        ".tsv" := by
  unfold predictFilePairs at hmem
  rcases List.mem_append.1 hmem with h | h
  · simp only [List.map_cons, List.map_nil, List.mem_cons, List.not_mem_nil,
      or_false] at h
    rcases h with h | h <;> subst h
    · exact ⟨fnDev, false, Or.inl rfl, by simp, rfl, rfl,
        (getTestPredictionFile_spec modelDir fnDev false step).1,
        (getTestPredictionFile_spec modelDir fnDev false step).2⟩
    · exact ⟨fnTest, false, Or.inr rfl, by simp, rfl, rfl,
        (getTestPredictionFile_spec modelDir fnTest false step).1,
        (getTestPredictionFile_spec modelDir fnTest false step).2⟩
  · by_cases hsqa : isSQA = true ∧ useTpu = false
    · rw [if_pos hsqa] at h
      simp only [List.map_cons, List.map_nil, List.mem_cons, List.not_mem_nil,
        or_false] at h
      rcases h with h | h <;> subst h
      · exact ⟨fnDev, true, Or.inl rfl, fun _ => hsqa, rfl, rfl,
          (getTestPredictionFile_spec modelDir fnDev true step).1,
          (getTestPredictionFile_spec modelDir fnDev true step).2⟩
      · exact ⟨fnTest, true, Or.inr rfl, fun _ => hsqa, rfl, rfl,
          (getTestPredictionFile_spec modelDir fnTest true step).1,
          (getTestPredictionFile_spec modelDir fnTest true step).2⟩
    · rw [if_neg hsqa] at h
      exact absurd h (List.not_mem_nil pair)

/-- Witness for claim C4 at a concrete pair of the SQA sequence branch. -/
theorem claim_C4_witness :
    ((getTestPredictionFile "model" "dev" true (some 7),
      getTestPredictionFile "model" "dev" true none) ∈
        predictFilePairs true false "model" "dev" "test" 7) ∧
    (∃ fn isSeq,
      (fn = "dev" ∨ fn = "test") ∧
      (isSeq = true → (true : Bool) = true ∧ (false : Bool) = false) ∧
      (getTestPredictionFile "model" "dev" true (some 7),
        getTestPredictionFile "model" "dev" true none).1 =
          getTestPredictionFile "model" fn isSeq (some 7) ∧
      (getTestPredictionFile "model" "dev" true (some 7),
        getTestPredictionFile "model" "dev" true none).2 =
          getTestPredictionFile "model" fn isSeq none ∧
      (getTestPredictionFile "model" "dev" true (some 7),
        getTestPredictionFile "model" "dev" true none).1 =
          "model" ++ "/" ++ fn ++ (if isSeq = true then "_sequence" else "") ++
            "_" ++ toString 7 ++ ".tsv" ∧
      (getTestPredictionFile "model" "dev" true (some 7),
        getTestPredictionFile "model" "dev" true none).2 =
          "model" ++ "/" ++ fn ++ (if isSeq = true then "_sequence" else "") ++
            ".tsv") :=
  ⟨by decide,
   claim_C4_prediction_files true false "model" "dev" "test" 7 _ (by decide)⟩

/-- Claim C3: evaluation of the polling-loop model at the failing input.
With loop_predict enabled, mode PREDICT, num_train_steps 2000 and
estimator.latest_checkpoint() returning the same checkpoint of step 1000 at
every poll, three unrolled iterations run three prediction passes on that
same checkpoint and never sleep, because prev_checkpoint is never updated
in the loop body of the edited source; the claim states the loop sleeps
whenever the latest checkpoint equals the one already processed and
predicts every checkpoint at most once. -/
theorem claim_C3_loop_repredicts_without_sleeping :
    pollLoop false true 2000 (fun _ => some 1000) 3 0 none =
      [LoopEvent.predictStep 1000, LoopEvent.predictStep 1000,
       LoopEvent.predictStep 1000] := by
  rfl

/-- Each per-query probability table has max(row_ids) rows. -/
theorem probTableRows_length (fl : Flags) (q : Query) :
    (probTableRows fl q).length = numRowsQ fl q := by
  simp [probTableRows]

/-- Threading the probs.npy content through the query loop: starting from
an existing file, each query appends its table rows. -/
theorem writeProbStore_ok (fl : Flags) (queries : List Query) (rows : List (List ℚ)) :
    writeProbStore fl queries (some rows) =
      Except.ok (some (rows ++ (queries.map (probTableRows fl)).flatten)) := by
  induction queries generalizing rows with
  | nil => simp [writeProbStore]
  | cons q rest ih =>
    rw [writeProbStore, ih (rows ++ probTableRows fl q)]
    simp [List.append_assoc]

/-- Claim C9: writing the probability table requires probs.npy to already
exist; when the file is absent, the first query fails with
FileNotFoundError, and when it holds some rows, the loop appends the
per-query tables so the file grows by max(row_ids) rows per query. -/
theorem claim_C9_probs_file (fl : Flags) (queries : List Query)
    (rows : List (List ℚ)) (q : Query) (rest : List Query) :
    (∃ e, writeProbStore fl (q :: rest) none = Except.error e) ∧
    writeProbStore fl queries (some rows) =
      Except.ok (some (rows ++ (queries.map (probTableRows fl)).flatten)) ∧
    (rows ++ (queries.map (probTableRows fl)).flatten).length =
      rows.length + (queries.map (numRowsQ fl)).sum := by
  refine ⟨⟨"FileNotFoundError: probs.npy", rfl⟩, writeProbStore_ok fl queries rows, ?_⟩
  simp only [List.length_append, List.length_flatten, List.map_map]
  have hmap : List.map (List.length ∘ probTableRows fl) queries =
      List.map (numRowsQ fl) queries :=
    List.map_congr_left (fun q2 _ => probTableRows_length fl q2)
  rw [hmap]

/-- Claim C10: in the write_embed_table path, query.npy and embeds.npy are
saved once per query inside the loop, each save overwriting the previous
one, so after the loop the files hold only the arrays of the last query of
the result sequence. -/
theorem claim_C10_last_query_wins (fl : Flags) (queries : List Query)
    (files : EmbedFiles) (hne : queries ≠ []) :
    ∃ qlast, queries.getLast? = some qlast ∧
      (writeEmbedStore fl queries files).queryFile = some (queryVecOf fl qlast) ∧
      (writeEmbedStore fl queries files).embedsFile = some (savedEmbeds fl qlast) ∧
      (writeEmbedStore fl queries files).querySaves =
        files.querySaves + queries.length ∧
      (writeEmbedStore fl queries files).embedsSaves =
        files.embedsSaves + queries.length := by
  induction queries generalizing files with
  | nil => exact absurd rfl hne
  | cons q rest ih =>
    cases rest with
    | nil => exact ⟨q, rfl, rfl, rfl, rfl, rfl⟩
    | cons q2 rest2 =>
      have hstep : writeEmbedStore fl (q :: q2 :: rest2) files =
          writeEmbedStore fl (q2 :: rest2)
            { queryFile := some (queryVecOf fl q),
              embedsFile := some (savedEmbeds fl q),
              querySaves := files.querySaves + 1,
              embedsSaves := files.embedsSaves + 1 } := rfl
      obtain ⟨qlast, hlast, h1, h2, h3, h4⟩ :=
        ih { queryFile := some (queryVecOf fl q),
             embedsFile := some (savedEmbeds fl q),
             querySaves := files.querySaves + 1,
             embedsSaves := files.embedsSaves + 1 } (by simp)
      refine ⟨qlast, ?_, ?_, ?_, ?_, ?_⟩
      · rw [List.getLast?_cons_cons]
        exact hlast
      · rw [hstep]; exact h1
      · rw [hstep]; exact h2
      · rw [hstep, h3]; simp; omega
      · rw [hstep, h4]; simp; omega

/-- Witness for claim C10 on a one-element query list. -/
theorem claim_C10_witness :
    (([qW] : List Query) ≠ []) ∧
    (∃ qlast, ([qW] : List Query).getLast? = some qlast ∧
      (writeEmbedStore flW [qW] emptyEmbedFiles).queryFile = some (queryVecOf flW qlast) ∧
      (writeEmbedStore flW [qW] emptyEmbedFiles).embedsFile = some (savedEmbeds flW qlast) ∧
      (writeEmbedStore flW [qW] emptyEmbedFiles).querySaves =
        emptyEmbedFiles.querySaves + ([qW] : List Query).length ∧
      (writeEmbedStore flW [qW] emptyEmbedFiles).embedsSaves =
        emptyEmbedFiles.embedsSaves + ([qW] : List Query).length) :=
  ⟨by simp, claim_C10_last_query_wins flW [qW] emptyEmbedFiles (by simp)⟩

/-- If no boundary position in 1..k writes to cell (r, c), the probability
table entry stays zero. -/
theorem probTableUpto_not_written (q : Query) (r c k : ℕ)
    (h : ∀ i, 1 ≤ i → i ≤ k → probBoundary q i →
      ¬(q.rowIds i - 1 = r ∧ q.columnIds i - 1 = c)) :
    probTableUpto q k r c = 0 := by
  induction k with
  | zero => rfl
  | succ k ih =>
    rw [probTableUpto]
    unfold probTableStep
    by_cases hb : probBoundary q (k+1)
    · rw [if_pos hb]
      unfold gridUpdate
      rw [if_neg]
      · exact ih (fun i hi1 hi2 => h i hi1 (Nat.le_trans hi2 (Nat.le_succ k)))
      · intro hc
        exact h (k+1) (by omega) (Nat.le_refl _) hb ⟨hc.1.symm, hc.2.symm⟩
    · rw [if_neg hb]
      exact ih (fun i hi1 hi2 => h i hi1 (Nat.le_trans hi2 (Nat.le_succ k)))

/-- If exactly one boundary position in 1..k writes to cell (r, c), the
probability table entry equals its probability. -/
theorem probTableUpto_written (q : Query) (r c k i0 : ℕ)
    (h1 : 1 ≤ i0) (h2 : i0 ≤ k) (hb : probBoundary q i0)
    (hcell : q.rowIds i0 - 1 = r ∧ q.columnIds i0 - 1 = c)
    (huniq : ∀ j, 1 ≤ j → j ≤ k → probBoundary q j →
      q.rowIds j - 1 = r → q.columnIds j - 1 = c → j = i0) :
    probTableUpto q k r c = q.probabilities i0 := by
  induction k with
  | zero => omega
  | succ k ih =>
    by_cases hk : i0 = k+1
    · subst hk
      rw [probTableUpto]
      unfold probTableStep
      rw [if_pos hb]
      unfold gridUpdate
      rw [if_pos ⟨hcell.1.symm, hcell.2.symm⟩]
    · have h2k : i0 ≤ k := by omega
      rw [probTableUpto]
      unfold probTableStep
      by_cases hb2 : probBoundary q (k+1)
      · rw [if_pos hb2]
        unfold gridUpdate
        rw [if_neg]
        · exact ih h2k (fun j hj1 hj2 => huniq j hj1 (by omega))
        · intro hc
          have := huniq (k+1) (by omega) (Nat.le_refl _) hb2 hc.1.symm hc.2.symm
          omega
      · rw [if_neg hb2]
        exact ih h2k (fun j hj1 hj2 => huniq j hj1 (by omega))

/-- Claim C1 counterexample: at a concrete query and a column_order of
[2, 1], position 1 is a boundary token of cell row 1, column 1 with
probability 1; the claimed placement (the column_order index remapping of
column_ids[1], zero-based column 1) holds 0, while the code stores the
probability at zero-based column column_ids[1]-1 = 0, so the claim as
stated is false on the code: the remapped entry is not the probability and
a different entry is nonzero. -/
theorem claim_C1_counterexample :
    probBoundary qC1 1 ∧
    flC1.columnOrder (qC1.columnIds 1 - 1) - 1 = 1 ∧
    qC1.probabilities 1 = 1 ∧
    probTable flC1 qC1 0 1 = 0 ∧
    probTable flC1 qC1 0 0 = 1 ∧
    probTableClaimed flC1 qC1 0 1 = 1 ∧
    probTable flC1 qC1 ≠ probTableClaimed flC1 qC1 :=
  ⟨by decide, by decide, by decide, by decide, by decide, by decide,
   fun h =>
     (by decide : ¬(probTable flC1 qC1 0 0 = probTableClaimed flC1 qC1 0 0))
       (congrFun (congrFun h 0) 0)⟩

/-- Claim C1 (amended): when write_prob_table is enabled, the per-table
probability array has, for each table cell identified by the first token
position i in 1..max_seq_length-1 with segment_ids[i] = 1 whose row id or
column id differs from that of position i-1, the probability
probabilities[i] stored at row row_ids[i]-1 and at column column_ids[i]-1
(the column_order index remapping is computed but not used by the store),
and every other entry is zero.  Stated for queries whose boundary positions
identify cells uniquely, with 1-based row and column ids as produced by the
tokenizer. -/
theorem claim_C1_prob_table_placement (fl : Flags) (q : Query)
    (hlen : 1 ≤ fl.maxSeqLength)
    (huniq : ∀ i ∈ Finset.Ico 1 fl.maxSeqLength, ∀ j ∈ Finset.Ico 1 fl.maxSeqLength,
      probBoundary q i → probBoundary q j → q.rowIds i - 1 = q.rowIds j - 1 →
      q.columnIds i - 1 = q.columnIds j - 1 → i = j) :
    (∀ i ∈ Finset.Ico 1 fl.maxSeqLength, probBoundary q i →
      probTable fl q (q.rowIds i - 1) (q.columnIds i - 1) = q.probabilities i) ∧
    (∀ r c, (∀ i ∈ Finset.Ico 1 fl.maxSeqLength, probBoundary q i →
        ¬(q.rowIds i - 1 = r ∧ q.columnIds i - 1 = c)) →
      probTable fl q r c = 0) := by
  constructor
  · intro i hi hb
    rw [Finset.mem_Ico] at hi
    unfold probTable
    apply probTableUpto_written q _ _ _ i hi.1 (by omega) hb ⟨rfl, rfl⟩
    intro j hj1 hj2 hbj hr hc
    exact huniq j (Finset.mem_Ico.2 ⟨hj1, by omega⟩) i (Finset.mem_Ico.2 ⟨hi.1, hi.2⟩)
      hbj hb hr hc
  · intro r c hnone
    unfold probTable
    apply probTableUpto_not_written
    intro i hi1 hi2 hb
    exact hnone i (Finset.mem_Ico.2 ⟨hi1, by omega⟩) hb

/-- Witness for claim C1 (amended) at the concrete boundary position 1 of
qC1. -/
theorem claim_C1_witness :
    (1 ≤ flC1.maxSeqLength) ∧ (1 ∈ Finset.Ico 1 flC1.maxSeqLength) ∧
    probBoundary qC1 1 ∧
    probTable flC1 qC1 (qC1.rowIds 1 - 1) (qC1.columnIds 1 - 1) = qC1.probabilities 1 :=
  ⟨by decide, by decide, by decide,
   (claim_C1_prob_table_placement flC1 qC1 (by decide) (by decide)).1 1
     (by decide) (by decide)⟩

theorem embedStep_seg1 (fl : Flags) (q : Query) (s : EmbedState) (i : ℕ)
    (h : q.segmentIds i = 1) :
    embedStep fl q s i =
      { row := q.rowIds i - 1, column := remapCol fl q i, atBeginning := false,
        embedSum := addCell s.embedSum (q.rowIds i - 1) (remapCol fl q i) (q.embeddings i),
        numArr := addNum s.numArr (q.rowIds i - 1) (remapCol fl q i),
        querySum := s.querySum, queryNum := s.queryNum } := by
  have h0 : ¬(q.segmentIds i = 0 ∧ s.atBeginning = true ∧ i ≠ 0 ∧
      q.segmentIds (i+1) ≠ 1) := by simp [h]
  by_cases hg : s.row = q.rowIds i - 1 ∧ s.column = remapCol fl q i
  · simp only [embedStep, if_neg h0, if_neg (fun hc => hc.2 hg : ¬(q.segmentIds i = 1 ∧ ¬(s.row = q.rowIds i - 1 ∧ s.column = remapCol fl q i))), if_pos h]
    rw [← hg.1, ← hg.2]
  · simp only [embedStep, if_neg h0, if_pos (And.intro h hg)]

theorem embedStep_seg0 (fl : Flags) (q : Query) (s : EmbedState) (i : ℕ)
    (h : q.segmentIds i = 0) :
    embedStep fl q s i =
      (if s.atBeginning = true ∧ i ≠ 0 ∧ q.segmentIds (i+1) ≠ 1 then
        { s with querySum := fun d => s.querySum d + q.embeddings i d,
                 queryNum := s.queryNum + 1 }
      else s) := by
  have h1 : q.segmentIds i ≠ 1 := by omega
  by_cases hq : s.atBeginning = true ∧ i ≠ 0 ∧ q.segmentIds (i+1) ≠ 1
  · simp only [embedStep, if_pos (And.intro h hq), if_pos hq]
    have h2 : ¬(q.segmentIds i = 1 ∧ ¬(({ s with querySum := fun d => s.querySum d + q.embeddings i d, queryNum := s.queryNum + 1 } : EmbedState).row = q.rowIds i - 1 ∧ ({ s with querySum := fun d => s.querySum d + q.embeddings i d, queryNum := s.queryNum + 1 } : EmbedState).column = remapCol fl q i)) := fun hc => h1 hc.1
    rw [if_neg h2, if_neg h1]
  · have h0 : ¬(q.segmentIds i = 0 ∧ s.atBeginning = true ∧ i ≠ 0 ∧
        q.segmentIds (i+1) ≠ 1) := fun hc => hq hc.2
    simp only [embedStep, if_neg h0, if_neg hq]
    rw [if_neg (fun hc => h1 hc.1 : ¬(q.segmentIds i = 1 ∧ ¬(s.row = q.rowIds i - 1 ∧ s.column = remapCol fl q i))), if_neg h1]

theorem embedStep_other (fl : Flags) (q : Query) (s : EmbedState) (i : ℕ)
    (h0 : q.segmentIds i ≠ 0) (h1 : q.segmentIds i ≠ 1) :
    embedStep fl q s i = s := by
  simp only [embedStep, if_neg (fun hc => h0 hc.1 : ¬(q.segmentIds i = 0 ∧ s.atBeginning = true ∧ i ≠ 0 ∧ q.segmentIds (i+1) ≠ 1))]
  rw [if_neg (fun hc => h1 hc.1 : ¬(q.segmentIds i = 1 ∧ ¬(s.row = q.rowIds i - 1 ∧ s.column = remapCol fl q i))), if_neg h1]

theorem cellTokensUpto_succ (fl : Flags) (q : Query) (r c k : ℕ) :
    cellTokensUpto fl q r c (k+1) =
      if q.segmentIds (k+1) = 1 ∧ q.rowIds (k+1) - 1 = r ∧ remapCol fl q (k+1) = c
      then insert (k+1) (cellTokensUpto fl q r c k)
      else cellTokensUpto fl q r c k := by
  unfold cellTokensUpto
  rw [Nat.Ico_succ_right_eq_insert_Ico (by omega), Finset.filter_insert]

theorem queryTokensUpto_succ (fl : Flags) (q : Query) (k : ℕ) :
    queryTokensUpto fl q (k+1) =
      if q.segmentIds (k+1) = 0 ∧ (∀ j ∈ Finset.Ico 1 (k+1), q.segmentIds j ≠ 1) ∧
          q.segmentIds (k+2) ≠ 1
      then insert (k+1) (queryTokensUpto fl q k)
      else queryTokensUpto fl q k := by
  unfold queryTokensUpto
  rw [Nat.Ico_succ_right_eq_insert_Ico (by omega), Finset.filter_insert]

theorem succ_not_mem_cellTokensUpto (fl : Flags) (q : Query) (r c k : ℕ) :
    (k+1) ∉ cellTokensUpto fl q r c k := by
  unfold cellTokensUpto
  intro hmem
  have := (Finset.mem_filter.1 hmem).1
  rw [Finset.mem_Ico] at this
  omega

theorem succ_not_mem_queryTokensUpto (fl : Flags) (q : Query) (k : ℕ) :
    (k+1) ∉ queryTokensUpto fl q k := by
  unfold queryTokensUpto
  intro hmem
  have := (Finset.mem_filter.1 hmem).1
  rw [Finset.mem_Ico] at this
  omega

theorem noSeg1_extend (q : Query) (k : ℕ) (h1 : q.segmentIds (k+1) ≠ 1) :
    (∀ j ∈ Finset.Ico 1 (k+2), q.segmentIds j ≠ 1) ↔
      (∀ j ∈ Finset.Ico 1 (k+1), q.segmentIds j ≠ 1) := by
  constructor
  · intro h j hj
    rw [Finset.mem_Ico] at hj
    exact h j (Finset.mem_Ico.2 ⟨hj.1, by omega⟩)
  · intro h j hj
    rw [Finset.mem_Ico] at hj
    by_cases hjk : j = k+1
    · rw [hjk]; exact h1
    · exact h j (Finset.mem_Ico.2 ⟨hj.1, by omega⟩)

theorem embedFoldUpto_inv (fl : Flags) (q : Query) (k : ℕ) :
    ((embedFoldUpto fl q k).atBeginning = true ↔
      ∀ j ∈ Finset.Ico 1 (k+1), q.segmentIds j ≠ 1) ∧
    (∀ r c, (embedFoldUpto fl q k).numArr r c = (cellTokensUpto fl q r c k).card) ∧
    (∀ r c d, (embedFoldUpto fl q k).embedSum r c d =
      ∑ i in cellTokensUpto fl q r c k, q.embeddings i d) ∧
    ((embedFoldUpto fl q k).queryNum = (queryTokensUpto fl q k).card) ∧
    (∀ d, (embedFoldUpto fl q k).querySum d =
      ∑ i in queryTokensUpto fl q k, q.embeddings i d) := by
  induction k with
  | zero =>
    refine ⟨by simp [embedFoldUpto, initEmbedState], ?_, ?_, ?_, ?_⟩ <;>
      simp [embedFoldUpto, initEmbedState, cellTokensUpto, queryTokensUpto]
  | succ k ih =>
    obtain ⟨ihA, ihN, ihS, ihQN, ihQS⟩ := ih
    have hstep : embedFoldUpto fl q (k+1) = embedStep fl q (embedFoldUpto fl q k) (k+1) := rfl
    by_cases h1 : q.segmentIds (k+1) = 1
    · rw [hstep, embedStep_seg1 fl q _ _ h1]
      refine ⟨?_, ?_, ?_, ?_, ?_⟩
      · simp only [Bool.false_eq_true, false_iff]
        intro hall
        exact hall (k+1) (Finset.mem_Ico.2 ⟨by omega, by omega⟩) h1
      · intro r c
        unfold addNum
        dsimp only
        rw [cellTokensUpto_succ]
        by_cases hrc : r = q.rowIds (k+1) - 1 ∧ c = remapCol fl q (k+1)
        · rw [if_pos hrc, if_pos ⟨h1, hrc.1.symm, hrc.2.symm⟩,
            Finset.card_insert_of_not_mem (succ_not_mem_cellTokensUpto fl q r c k),
            ihN r c]
        · rw [if_neg hrc, if_neg (fun hc => hrc ⟨hc.2.1.symm, hc.2.2.symm⟩), ihN r c]
      · intro r c d
        unfold addCell
        dsimp only
        rw [cellTokensUpto_succ]
        by_cases hrc : r = q.rowIds (k+1) - 1 ∧ c = remapCol fl q (k+1)
        · rw [if_pos hrc, if_pos ⟨h1, hrc.1.symm, hrc.2.symm⟩,
            Finset.sum_insert (succ_not_mem_cellTokensUpto fl q r c k), ihS r c d]
          ring
        · rw [if_neg hrc, if_neg (fun hc => hrc ⟨hc.2.1.symm, hc.2.2.symm⟩), ihS r c d]
      · rw [queryTokensUpto_succ, if_neg (fun hc => by omega : ¬(q.segmentIds (k+1) = 0 ∧ (∀ j ∈ Finset.Ico 1 (k+1), q.segmentIds j ≠ 1) ∧ q.segmentIds (k+2) ≠ 1))]
        exact ihQN
      · intro d
        rw [queryTokensUpto_succ, if_neg (fun hc => by omega : ¬(q.segmentIds (k+1) = 0 ∧ (∀ j ∈ Finset.Ico 1 (k+1), q.segmentIds j ≠ 1) ∧ q.segmentIds (k+2) ≠ 1))]
        exact ihQS d
    · by_cases h0 : q.segmentIds (k+1) = 0
      · rw [hstep, embedStep_seg0 fl q _ _ h0]
        by_cases hq : (embedFoldUpto fl q k).atBeginning = true ∧ (k+1) ≠ 0 ∧
            q.segmentIds (k+2) ≠ 1
        · rw [if_pos hq]
          refine ⟨?_, ?_, ?_, ?_, ?_⟩
          · show (embedFoldUpto fl q k).atBeginning = true ↔ _
            rw [ihA, noSeg1_extend q k h1]
          · intro r c
            rw [cellTokensUpto_succ, if_neg (fun hc => h1 hc.1)]
            exact ihN r c
          · intro r c d
            rw [cellTokensUpto_succ, if_neg (fun hc => h1 hc.1)]
            exact ihS r c d
          · show (embedFoldUpto fl q k).queryNum + 1 = _
            rw [queryTokensUpto_succ, if_pos ⟨h0, ihA.1 hq.1, hq.2.2⟩,
              Finset.card_insert_of_not_mem (succ_not_mem_queryTokensUpto fl q k), ihQN]
          · intro d
            show (embedFoldUpto fl q k).querySum d + q.embeddings (k+1) d = _
            rw [queryTokensUpto_succ, if_pos ⟨h0, ihA.1 hq.1, hq.2.2⟩,
              Finset.sum_insert (succ_not_mem_queryTokensUpto fl q k), ihQS d]
            ring
        · rw [if_neg hq]
          refine ⟨?_, ?_, ?_, ?_, ?_⟩
          · rw [ihA, noSeg1_extend q k h1]
          · intro r c
            rw [cellTokensUpto_succ, if_neg (fun hc => h1 hc.1)]
            exact ihN r c
          · intro r c d
            rw [cellTokensUpto_succ, if_neg (fun hc => h1 hc.1)]
            exact ihS r c d
          · rw [queryTokensUpto_succ, if_neg (fun hc =>
              hq ⟨ihA.2 hc.2.1, by omega, hc.2.2⟩)]
            exact ihQN
          · intro d
            rw [queryTokensUpto_succ, if_neg (fun hc =>
              hq ⟨ihA.2 hc.2.1, by omega, hc.2.2⟩)]
            exact ihQS d
      · rw [hstep, embedStep_other fl q _ _ h0 h1]
        refine ⟨?_, ?_, ?_, ?_, ?_⟩
        · rw [ihA, noSeg1_extend q k h1]
        · intro r c
          rw [cellTokensUpto_succ, if_neg (fun hc => h1 hc.1)]
          exact ihN r c
        · intro r c d
          rw [cellTokensUpto_succ, if_neg (fun hc => h1 hc.1)]
          exact ihS r c d
        · rw [queryTokensUpto_succ, if_neg (fun hc => h0 hc.1)]
          exact ihQN
        · intro d
          rw [queryTokensUpto_succ, if_neg (fun hc => h0 hc.1)]
          exact ihQS d

/-- The full-loop token sets agree with the cut-off versions at
k = max_seq_length - 1. -/
theorem cellTokens_eq_upto (fl : Flags) (q : Query) (r c : ℕ) :
    cellTokens fl q r c = cellTokensUpto fl q r c (fl.maxSeqLength - 1) := by
  unfold cellTokens cellTokensUpto
  have hico : Finset.Ico 1 fl.maxSeqLength = Finset.Ico 1 (fl.maxSeqLength - 1 + 1) := by
    ext i
    simp only [Finset.mem_Ico]
    omega
  rw [hico]

/-- The full-loop query token set agrees with the cut-off version at
k = max_seq_length - 1. -/
theorem queryTokens_eq_upto (fl : Flags) (q : Query) :
    queryTokens fl q = queryTokensUpto fl q (fl.maxSeqLength - 1) := by
  unfold queryTokens queryTokensUpto
  have hico : Finset.Ico 1 fl.maxSeqLength = Finset.Ico 1 (fl.maxSeqLength - 1 + 1) := by
    ext i
    simp only [Finset.mem_Ico]
    omega
  rw [hico]

/-- The final loop state characterized over the full position range: the
counts are the token counts per cell, the sums are the embedding sums per
cell, and likewise for the query accumulators. -/
theorem embedFold_spec (fl : Flags) (q : Query) :
    (∀ r c, (embedFold fl q).numArr r c = (cellTokens fl q r c).card) ∧
    (∀ r c d, (embedFold fl q).embedSum r c d =
      ∑ i in cellTokens fl q r c, q.embeddings i d) ∧
    ((embedFold fl q).queryNum = (queryTokens fl q).card) ∧
    (∀ d, (embedFold fl q).querySum d = ∑ i in queryTokens fl q, q.embeddings i d) := by
  obtain ⟨_, hN, hS, hQN, hQS⟩ := embedFoldUpto_inv fl q (fl.maxSeqLength - 1)
  refine ⟨?_, ?_, ?_, ?_⟩
  · intro r c
    rw [cellTokens_eq_upto]
    exact hN r c
  · intro r c d
    rw [cellTokens_eq_upto]
    exact hS r c d
  · rw [queryTokens_eq_upto]
    exact hQN
  · intro d
    rw [queryTokens_eq_upto]
    exact hQS d

/-- Claim C2: when write_embed_table is enabled, for every query and every
table cell (row r, column c after the column_order index remapping) that
receives at least one segment-1 token, the embedding saved for that cell is
the arithmetic mean, accumulated sum divided by accumulated count, of the
embedding vectors of all token positions mapped to that cell; and the saved
query embedding is the mean of the counted leading segment-0 token
embeddings (when at least one is counted, otherwise the division is
undefined, see claim C8). -/
theorem claim_C2_embed_mean (fl : Flags) (q : Query) :
    (∀ r c, (embedFold fl q).numArr r c = (cellTokens fl q r c).card) ∧
    (∀ r c d, (embedFold fl q).embedSum r c d =
      ∑ i in cellTokens fl q r c, q.embeddings i d) ∧
    (∀ r c, (cellTokens fl q r c).Nonempty →
      embedEntry fl q r c = some (fun d =>
        (∑ i in cellTokens fl q r c, q.embeddings i d) /
          ((cellTokens fl q r c).card : ℚ))) ∧
    ((embedFold fl q).queryNum = (queryTokens fl q).card) ∧
    (∀ d, (embedFold fl q).querySum d = ∑ i in queryTokens fl q, q.embeddings i d) ∧
    ((queryTokens fl q).Nonempty →
      queryVecOf fl q = some (fun d =>
        (∑ i in queryTokens fl q, q.embeddings i d) /
          ((queryTokens fl q).card : ℚ))) := by
  obtain ⟨hN, hS, hQN, hQS⟩ := embedFold_spec fl q
  refine ⟨hN, hS, ?_, hQN, hQS, ?_⟩
  · intro r c hne
    have hpos : 0 < (cellTokens fl q r c).card := Finset.card_pos.2 hne
    have hnz : (embedFold fl q).numArr r c ≠ 0 := by
      rw [hN r c]
      omega
    unfold embedEntry
    rw [if_neg hnz]
    apply congrArg some
    funext d
    rw [hS r c d, hN r c]
  · intro hne
    have hpos : 0 < (queryTokens fl q).card := Finset.card_pos.2 hne
    have hnz : (embedFold fl q).queryNum ≠ 0 := by
      rw [hQN]
      omega
    unfold queryVecOf
    rw [if_neg hnz]
    apply congrArg some
    funext d
    rw [hQS d, hQN]

/-- Witness for claim C2 at the concrete query qW: cell (0, 0) receives the
token at position 3 and the query embedding counts position 1. -/
theorem claim_C2_witness :
    (cellTokens flW qW 0 0).Nonempty ∧ (queryTokens flW qW).Nonempty ∧
    embedEntry flW qW 0 0 = some (fun d =>
      (∑ i in cellTokens flW qW 0 0, qW.embeddings i d) /
        ((cellTokens flW qW 0 0).card : ℚ)) ∧
    queryVecOf flW qW = some (fun d =>
      (∑ i in queryTokens flW qW, qW.embeddings i d) /
        ((queryTokens flW qW).card : ℚ)) :=
  ⟨by decide, by decide,
   (claim_C2_embed_mean flW qW).2.2.1 0 0 (by decide),
   (claim_C2_embed_mean flW qW).2.2.2.2.2 (by decide)⟩

/-- Claim C8: the normalization of the write_embed_table path divides every
entry of the (num_rows, num_columns) grid, including entries that received
no token: the flattened saved array has exactly num_rows * num_columns
entries covering every cell, and an entry is undefined (numpy nan, modeled
none) exactly when its cell received no segment-1 token; likewise the saved
query embedding is undefined exactly when no leading segment-0 token was
counted. -/
theorem claim_C8_unguarded_division (fl : Flags) (q : Query) :
    (savedEmbeds fl q).length = numRowsQ fl q * fl.numColumns ∧
    (∀ r, r < numRowsQ fl q → ∀ c, c < fl.numColumns →
      embedEntry fl q r c ∈ savedEmbeds fl q) ∧
    (∀ r c, (embedEntry fl q r c = none ↔ cellTokens fl q r c = ∅)) ∧
    (queryVecOf fl q = none ↔ queryTokens fl q = ∅) := by
  obtain ⟨hN, _, hQN, _⟩ := embedFold_spec fl q
  refine ⟨?_, ?_, ?_, ?_⟩
  · unfold savedEmbeds
    rw [List.length_flatten, List.map_map]
    have hconst : List.map (List.length ∘ fun r =>
        (List.range fl.numColumns).map (fun c => embedEntry fl q r c))
          (List.range (numRowsQ fl q)) =
        List.map (fun _ => fl.numColumns) (List.range (numRowsQ fl q)) :=
      List.map_congr_left (fun r _ => by simp)
    rw [hconst, List.map_const', List.sum_replicate, List.length_range, smul_eq_mul]
  · intro r hr c hc
    unfold savedEmbeds
    exact List.mem_flatten.2 ⟨(List.range fl.numColumns).map (fun c => embedEntry fl q r c),
      List.mem_map_of_mem _ (List.mem_range.2 hr),
      List.mem_map_of_mem _ (List.mem_range.2 hc)⟩
  · intro r c
    unfold embedEntry
    by_cases h : (embedFold fl q).numArr r c = 0
    · rw [if_pos h]
      exact iff_of_true rfl (Finset.card_eq_zero.1 (by rw [← hN r c]; exact h))
    · rw [if_neg h]
      apply iff_of_false
      · exact fun hc2 => Option.noConfusion hc2
      · intro hempty
        apply h
        rw [hN r c, hempty, Finset.card_empty]
  · unfold queryVecOf
    by_cases h : (embedFold fl q).queryNum = 0
    · rw [if_pos h]
      exact iff_of_true rfl (Finset.card_eq_zero.1 (by rw [← hQN]; exact h))
    · rw [if_neg h]
      apply iff_of_false
      · exact fun hc2 => Option.noConfusion hc2
      · intro hempty
        apply h
        rw [hQN, hempty, Finset.card_empty]

/-- Witness for claim C8 at the concrete query qW: the defined entry (0, 0)
is an element of the saved array, and entry (0, 1) with no token is
undefined. -/
theorem claim_C8_witness :
    (0 < numRowsQ flW qW) ∧ (0 < flW.numColumns) ∧
    embedEntry flW qW 0 0 ∈ savedEmbeds flW qW ∧
    (embedEntry flW qW 0 1 = none ↔ cellTokens flW qW 0 1 = ∅) :=
  ⟨by decide, by decide,
   (claim_C8_unguarded_division flW qW).2.1 0 (by decide) 0 (by decide),
   (claim_C8_unguarded_division flW qW).2.2.1 0 1⟩

end Tapas
